import Mathlib

/-!
Verification of the heartbeat-dispatch pipeline of aw-watcher.nvim.

The development shallowly embeds the two source files (`src/lib.rs`,
`src/handler.rs`).  Time is modelled in milliseconds as `Nat`; the Rust
`Instant::saturating_duration_since` corresponds exactly to truncated `Nat`
subtraction.  Host-API calls that can fail (buffer name, working directory,
filetype) are modelled as `Except String String` inputs carried by the
activity signal; the mutex acquisition and the dispatch-channel send are
modelled as boolean environment flags (`lockOk`, `txOpen`).
-/

deriving instance DecidableEq for Except

/-- The shared `Globals` record of `lib.rs` (lines 20-26): the connected
flag, the monotonic timestamp of the last heartbeat gate passage, and the
last reported (file, project, language) triple. -/
structure Globals where
  connected : Bool
  last_heartbeat : Nat
  last_file : String
  last_project : String
  last_language : String
deriving DecidableEq, Repr

/-- An activity signal together with the ambient editor state it observes:
the monotonic instant `now`, the wall-clock instant `utcNow`, and the three
fallible host-API resolutions performed by `trigger_heartbeat`. -/
structure Signal where
  now : Nat
  utcNow : Nat
  file : Except String String
  project : Except String String
  language : Except String String
deriving DecidableEq, Repr

/-- The `aw_client_rust::Event` value constructed by `trigger_heartbeat`
(lines 183-196): no id, current wall-clock timestamp, zero duration, and a
string map holding the file, project and language entries. -/
structure Event where
  id : Option Nat
  timestamp : Nat
  duration : Nat
  data : List (String × String)
deriving DecidableEq, Repr

/-- Shallow embedding of `trigger_heartbeat` (`lib.rs` lines 123-205).

Returns the `oxi::Result<bool>` of the callback, the updated globals, and
the list of events pushed onto the dispatch channel (empty or a
singleton).  `lockOk` is whether `GLOBALS.lock()` succeeds (line 127);
`txOpen` is whether the dispatch channel still has its receiver, i.e.
whether `tx.send` succeeds (line 198).  The gate order mirrors the source:
lock, connected flag, one-second debounce, then `last_heartbeat` is
overwritten (line 145) before the file/project/language resolutions and
the unchanged-triple check run. -/
def trigger_heartbeat (lockOk : Bool) (txOpen : Bool) (g : Globals) (sig : Signal) :
    Except String Bool × Globals × List Event :=
  if lockOk = false then (Except.ok false, g, [])
  else if g.connected = false then (Except.ok false, g, [])
  else if sig.now - g.last_heartbeat ≤ 1000 then (Except.ok false, g, [])
  else
    let g1 : Globals := { g with last_heartbeat := sig.now }
    match sig.file with
    | Except.error e => (Except.error e, g1, [])
    | Except.ok file =>
      match sig.project with
      | Except.error e => (Except.error e, g1, [])
      | Except.ok project =>
        match sig.language with
        | Except.error e => (Except.error e, g1, [])
        | Except.ok language =>
          if file == g1.last_file && language == g1.last_language
              && project == g1.last_project then
            (Except.ok false, g1, [])
          else
            let g2 : Globals :=
              { g1 with last_file := file, last_project := project,
                        last_language := language }
            let event : Event :=
              { id := none, timestamp := sig.utcNow, duration := 0,
                data := [("file", file), ("project", project), ("language", language)] }
            if txOpen then (Except.ok false, g2, [event])
            else (Except.error ("channel closed"), g2, [])

/-- Processes a sequence of activity signals through `trigger_heartbeat`,
threading the globals and concatenating the enqueued events.  Each call
carries its own `(lockOk, txOpen)` environment pair. -/
def runSignals (g : Globals) (calls : List (Bool × Bool × Signal)) :
    Globals × List Event :=
  match calls with
  | [] => (g, [])
  | c :: rest =>
    let r := trigger_heartbeat c.1 c.2.1 g c.2.2
    let rr := runSignals r.2.1 rest
    (rr.1, r.2.2 ++ rr.2)

/-- The environment of one delivery attempt made by the worker: the outcome
of `client.heartbeat` (`handler.rs` line 41-43), whether
`error_channel.send` still has its receiver (line 46), and whether
`error_handle.send()` succeeds (line 50). -/
structure DeliveryEnv where
  outcome : Except String Unit
  errOpen : Bool
  handleOk : Bool
deriving DecidableEq, Repr

/-- How the worker's run loop ended: the dispatch channel was drained and
closed (`rx.recv()` returned `None`), the loop hit `break` because the
error channel's receiver was gone, or the `expect` on the wakeup handle's
send aborted the thread. -/
inductive WorkerExit where
  | drained
  | errChannelClosed
  | crashed
deriving DecidableEq, Repr

/-- The observable trace of one worker run: events whose delivery was
attempted, errors pushed into the error channel, and how the loop ended. -/
structure WorkerRun where
  attempted : List Event
  errorsSent : List String
  exit : WorkerExit
deriving DecidableEq, Repr

/-- Shallow embedding of `run_handler` (`handler.rs` lines 34-54).  The
input list is the whole content the dispatch channel will ever deliver,
each event paired with the environment of its delivery attempt; the list
ending corresponds to the channel being closed.  On a delivery failure the
worker first sends the error into the error channel: if that send fails it
breaks out of the loop; otherwise it fires the wakeup handle, whose send
result is unwrapped with `expect` — a failure there aborts the thread. -/
def run_handler : List (Event × DeliveryEnv) → WorkerRun
  | [] => { attempted := [], errorsSent := [], exit := WorkerExit.drained }
  | (ev, env) :: rest =>
    match env.outcome with
    | Except.ok _ =>
      let r := run_handler rest
      { attempted := ev :: r.attempted, errorsSent := r.errorsSent, exit := r.exit }
    | Except.error e =>
      if env.errOpen = false then
        { attempted := [ev], errorsSent := [], exit := WorkerExit.errChannelClosed }
      else if env.handleOk = false then
        { attempted := [ev], errorsSent := [e], exit := WorkerExit.crashed }
      else
        let r := run_handler rest
        { attempted := ev :: r.attempted, errorsSent := e :: r.errorsSent,
          exit := r.exit }

/-- The observable outcome of one invocation of the error-signal callback:
the globals after the invocation, the notifications scheduled with
`oxi::schedule`, and whether the callback returned.  `returned = false`
means the callback is still blocked inside `blocking_recv`. -/
structure CallbackRun where
  globals : Globals
  notifications : List String
  returned : Bool
deriving DecidableEq, Repr

/-- Shallow embedding of the `AsyncHandle` callback installed by `entry`
(`lib.rs` lines 60-69).  `queued` is the list of errors the error channel
delivers to this invocation; for each one the callback schedules a
notification and sets `connected = false`.  The loop runs
`error_rx.blocking_recv()`, which returns `None` only once every sender is
dropped: when the queue is exhausted the callback returns only if the
worker's sender is gone (`senderAlive = false`); otherwise it stays
blocked inside `blocking_recv`. -/
def error_callback (g : Globals) (queued : List String) (senderAlive : Bool) :
    CallbackRun :=
  match queued with
  | [] => { globals := g, notifications := [], returned := !senderAlive }
  | e :: rest =>
    let g1 : Globals := { g with connected := false }
    let r := error_callback g1 rest senderAlive
    { globals := r.globals, notifications := e :: r.notifications,
      returned := r.returned }

/-- Shallow embedding of `start_watcher` (`lib.rs` lines 90-104).
`bucketResult` is the outcome of `create_bucket_simple` after `map_err`;
the connected flag is set to `result.is_ok()` and the result itself is
returned to the caller. -/
def start_watcher (bucketResult : Except String Unit) (g : Globals) :
    Except String Unit × Globals :=
  let connected : Bool :=
    match bucketResult with
    | Except.ok _ => true
    | Except.error _ => false
  (bucketResult, { g with connected := connected })

/-! ## Helper lemmas -/

/-- With `connected = false` (or a failed lock) the filter returns
`Ok(false)` immediately: globals untouched, nothing enqueued. -/
theorem trigger_heartbeat_of_not_connected (lk tx : Bool) (g : Globals)
    (sig : Signal) (hc : g.connected = false) :
    trigger_heartbeat lk tx g sig = (Except.ok false, g, []) := by
  unfold trigger_heartbeat
  rcases lk with _ | _
  · rfl
  · simp [hc]

/-- A signal whose resolved triple coincides with the recorded triple never
enqueues an event, whatever the environment and elapsed time. -/
theorem trigger_heartbeat_no_emit_of_unchanged (lk tx : Bool) (g : Globals)
    (sig : Signal) (f p l : String)
    (hf : sig.file = Except.ok f) (hp : sig.project = Except.ok p)
    (hl : sig.language = Except.ok l)
    (hgf : g.last_file = f) (hgp : g.last_project = p)
    (hgl : g.last_language = l) :
    (trigger_heartbeat lk tx g sig).2.2 = [] := by
  unfold trigger_heartbeat
  rcases lk with _ | _
  · rfl
  · rcases hc : g.connected with _ | _
    · simp
    · rcases le_or_lt (sig.now - g.last_heartbeat) 1000 with hle | hlt
      · simp [hle]
      · simp only [hc, hf, hp, hl, Nat.not_le.mpr hlt]
        simp [hgf, hgp, hgl]

/-! ## C1 — the four-signal scenario -/

/-- Initial globals for the C1 scenario: connected, last heartbeat far in
the past, recorded file already `a`. -/
def c1_g0 : Globals :=
  { connected := true, last_heartbeat := 0, last_file := "a",
    last_project := "q", last_language := "l" }

/-- A C1 scenario signal at monotonic/wall time `t` editing file `f`, with
a fixed working directory and filetype. -/
def c1_sig (t : Nat) (f : String) : Signal :=
  { now := t, utcNow := t, file := Except.ok f,
    project := Except.ok ("p"), language := Except.ok ("l") }

/-- The four signals of the C1 scenario, with the scenario's t=0 placed at
10000 ms so that more than one second has elapsed at the first signal. -/
def c1_calls : List (Bool × Bool × Signal) :=
  [(true, true, c1_sig 10000 ("a")), (true, true, c1_sig 10500 ("a")),
   (true, true, c1_sig 11500 ("a")), (true, true, c1_sig 12000 ("b"))]

/-- The event emitted by a C1 scenario signal at time `t` for file `f`. -/
def c1_event (t : Nat) (f : String) : Event :=
  { id := none, timestamp := t, duration := 0,
    data := [("file", f), ("project", "p"), ("language", "l")] }

/-- C1 counterexample: the scenario claims emissions at t=0 and t=2.0s, so
at least two events; the code emits only one.  The t=1.5s signal, although
skipped for an unchanged triple, overwrites `last_heartbeat` (line 145 runs
before the unchanged-triple check), so at t=2.0s only 0.5s have elapsed
and the file=b signal is rejected by the one-second gate. -/
theorem c1_scenario_counterexample :
    ¬ (2 ≤ (runSignals c1_g0 c1_calls).2.length) := by decide

/-- C1 (amended): in the scenario, the signal at t=0 (file=a) emits, the
signal at t=0.5s is skipped (≤ 1s), the signal at t=1.5s is skipped
(unchanged triple) but refreshes `last_heartbeat`, and the signal at
t=2.0s (file=b) is therefore also skipped (only 0.5s since the refresh); a
file=b signal emits once more than one second has passed since t=1.5s,
e.g. at t=2.6s.  The five-signal run enqueues exactly the first and the
last event. -/
theorem c1_scenario_amended :
    runSignals c1_g0 (c1_calls ++ [(true, true, c1_sig 12600 ("b"))]) =
      ({ connected := true, last_heartbeat := 12600, last_file := "b",
         last_project := "p", last_language := "l" },
       [c1_event 10000 ("a"), c1_event 12600 ("b")]) := by decide

/-! ## C2 — what `last_heartbeat` records -/

/-- Initial globals for the C2 counterexample: connected, last heartbeat
at 0, recorded triple (a, p, l). -/
def c2_g0 : Globals :=
  { connected := true, last_heartbeat := 0, last_file := "a",
    last_project := "p", last_language := "l" }

/-- A C2 signal at 2000 ms resolving to the already-recorded triple. -/
def c2_sig : Signal :=
  { now := 2000, utcNow := 2000, file := Except.ok ("a"),
    project := Except.ok ("p"), language := Except.ok ("l") }

/-- C2 counterexample: a signal with an unchanged triple enqueues no event,
yet `last_heartbeat` moves from 0 to the signal's time 2000 — so
`lastHeartbeatAt` does not record only emitted heartbeats. -/
theorem c2_counterexample :
    (trigger_heartbeat true true c2_g0 c2_sig).2.2 = [] ∧
    ¬ ((trigger_heartbeat true true c2_g0 c2_sig).2.1.last_heartbeat
        = c2_g0.last_heartbeat) := by decide

/-- C2 (amended): `last_heartbeat` is overwritten with the signal's time on
every signal that passes the lock, connected and one-second gates — even
when the signal is then skipped for an unchanged triple, fails resolution,
or fails the channel send — and the globals are unchanged on signals
rejected by the one-second gate. -/
theorem c2_last_heartbeat_records_gate_passage (g : Globals) (lk tx : Bool)
    (sig : Signal) :
    (g.connected = true → 1000 < sig.now - g.last_heartbeat →
      (trigger_heartbeat true tx g sig).2.1.last_heartbeat = sig.now) ∧
    (sig.now - g.last_heartbeat ≤ 1000 →
      (trigger_heartbeat lk tx g sig).2.1 = g) := by
  constructor
  · intro hc ht
    unfold trigger_heartbeat
    rw [if_neg (by simp : ¬((true : Bool) = false)), if_neg (by simp [hc]),
      if_neg (Nat.not_le.mpr ht)]
    rcases hf : sig.file with e | f
    · rfl
    · rcases hp : sig.project with e | p
      · rfl
      · rcases hl : sig.language with e | l
        · rfl
        · dsimp only
          split
          · rfl
          · split <;> rfl
  · intro hle
    unfold trigger_heartbeat
    rcases lk with _ | _
    · rfl
    · rcases hc : g.connected with _ | _
      · simp
      · simp [hle]

/-- Witness for the amended C2 theorem at concrete inputs: the skipped
signal of the counterexample indeed lands `last_heartbeat` on 2000, and a
signal within the one-second window leaves the globals untouched. -/
theorem c2_last_heartbeat_records_gate_passage_witness :
    (trigger_heartbeat true true c2_g0 c2_sig).2.1.last_heartbeat = 2000 ∧
    (trigger_heartbeat true true c2_g0
        { c2_sig with now := 500 }).2.1 = c2_g0 :=
  ⟨(c2_last_heartbeat_records_gate_passage c2_g0 true true c2_sig).1
      (by decide) (by decide),
   (c2_last_heartbeat_records_gate_passage c2_g0 true true
      { c2_sig with now := 500 }).2 (by decide)⟩

/-! ## C3 — changed triple past the debounce window emits exactly once -/

/-- C3: for a signal with the lock held, `connected = true`, strictly more
than one second elapsed since `last_heartbeat`, successfully resolved
file/project/language differing from the recorded triple, and an open
dispatch channel, the filter returns `Ok(false)`, updates
`last_heartbeat` and the whole triple in the globals, and enqueues exactly
one event carrying that triple — the state update is part of the same
atomic result as the enqueue. -/
theorem c3_changed_triple_emits_once (g : Globals) (sig : Signal)
    (f p l : String)
    (hc : g.connected = true) (ht : 1000 < sig.now - g.last_heartbeat)
    (hf : sig.file = Except.ok f) (hp : sig.project = Except.ok p)
    (hl : sig.language = Except.ok l)
    (hdiff : (f == g.last_file && l == g.last_language
        && p == g.last_project) = false) :
    trigger_heartbeat true true g sig =
      (Except.ok false,
       { g with last_heartbeat := sig.now, last_file := f,
                last_project := p, last_language := l },
       [{ id := none, timestamp := sig.utcNow, duration := 0,
          data := [("file", f), ("project", p), ("language", l)] }]) := by
  unfold trigger_heartbeat
  rw [if_neg (by simp : ¬((true : Bool) = false)), if_neg (by simp [hc]),
    if_neg (Nat.not_le.mpr ht), hf, hp, hl]
  dsimp only
  split
  · rename_i h
    rw [show ({ g with last_heartbeat := sig.now } : Globals).last_file
          = g.last_file from rfl,
       show ({ g with last_heartbeat := sig.now } : Globals).last_language
          = g.last_language from rfl,
       show ({ g with last_heartbeat := sig.now } : Globals).last_project
          = g.last_project from rfl] at h
    rw [hdiff] at h
    cases h
  · rfl

/-- Globals used to witness C3: connected, debounce window long expired,
recorded file `old`. -/
def c3w_g : Globals :=
  { connected := true, last_heartbeat := 0, last_file := "old",
    last_project := "p", last_language := "l" }

/-- Signal used to witness C3: resolves to file `new` at 5000 ms. -/
def c3w_sig : Signal :=
  { now := 5000, utcNow := 5000, file := Except.ok ("new"),
    project := Except.ok ("p"), language := Except.ok ("l") }

/-- Witness for C3 at concrete inputs. -/
theorem c3_changed_triple_emits_once_witness :
    trigger_heartbeat true true c3w_g c3w_sig =
      (Except.ok false,
       { connected := true, last_heartbeat := 5000, last_file := "new",
         last_project := "p", last_language := "l" },
       [{ id := none, timestamp := 5000, duration := 0,
          data := [("file", "new"), ("project", "p"), ("language", "l")] }]) :=
  c3_changed_triple_emits_once c3w_g c3w_sig ("new") ("p") ("l") rfl
    (by decide) rfl rfl rfl (by decide)

/-! ## C4 — disconnected state emits nothing -/

/-- C4: while `connected = false`, any sequence of activity signals leaves
the globals untouched and enqueues zero events, and each individual signal
returns `Ok(false)` without emitting, whatever the lock and channel
environment. -/
theorem c4_disconnected_emits_nothing (g : Globals) (hc : g.connected = false) :
    (∀ calls, runSignals g calls = (g, [])) ∧
    (∀ lk tx sig, trigger_heartbeat lk tx g sig = (Except.ok false, g, [])) := by
  have hstep : ∀ lk tx sig,
      trigger_heartbeat lk tx g sig = (Except.ok false, g, []) :=
    fun lk tx sig => trigger_heartbeat_of_not_connected lk tx g sig hc
  refine ⟨?_, hstep⟩
  intro calls
  induction calls with
  | nil => rfl
  | cons c rest ih => simp [runSignals, hstep, ih]

/-- Globals used to witness C4: disconnected. -/
def c4w_g : Globals :=
  { connected := false, last_heartbeat := 0, last_file := "",
    last_project := "", last_language := "" }

/-- Witness for C4 at concrete inputs: a two-signal sequence under a
disconnected state yields no events and an unchanged state. -/
theorem c4_disconnected_emits_nothing_witness :
    runSignals c4w_g
      [(true, true, c3w_sig), (true, true, c1_sig 12000 ("b"))]
      = (c4w_g, []) :=
  (c4_disconnected_emits_nothing c4w_g rfl).1
    [(true, true, c3w_sig), (true, true, c1_sig 12000 ("b"))]

/-! ## C5 — re-processing an unchanged triple enqueues nothing -/

/-- C5: two signals resolve to the same (file, project, language) triple,
more than one second apart; when the triple recorded after the first
signal equals that common triple (the "unchanged triple" situation), the
second signal enqueues no event. -/
theorem c5_unchanged_triple_idempotent (g : Globals) (s1 s2 : Signal)
    (f p l : String)
    (h1f : s1.file = Except.ok f) (h1p : s1.project = Except.ok p)
    (h1l : s1.language = Except.ok l)
    (h2f : s2.file = Except.ok f) (h2p : s2.project = Except.ok p)
    (h2l : s2.language = Except.ok l)
    (hgap : 1000 < s2.now - s1.now)
    (hf1 : (trigger_heartbeat true true g s1).2.1.last_file = f)
    (hp1 : (trigger_heartbeat true true g s1).2.1.last_project = p)
    (hl1 : (trigger_heartbeat true true g s1).2.1.last_language = l) :
    (trigger_heartbeat true true
        (trigger_heartbeat true true g s1).2.1 s2).2.2 = [] :=
  trigger_heartbeat_no_emit_of_unchanged true true
    (trigger_heartbeat true true g s1).2.1 s2 f p l h2f h2p h2l hf1 hp1 hl1

/-- Second signal used to witness C5: same triple as `c3w_sig`, 2.5
seconds later. -/
def c5w_sig2 : Signal :=
  { now := 7500, utcNow := 7500, file := Except.ok ("new"),
    project := Except.ok ("p"), language := Except.ok ("l") }

/-- Witness for C5 at concrete inputs: the first signal emits (changing
the recorded file to `new`), and the identical signal 2.5 s later
enqueues nothing. -/
theorem c5_unchanged_triple_idempotent_witness :
    (trigger_heartbeat true true
        (trigger_heartbeat true true c3w_g c3w_sig).2.1 c5w_sig2).2.2 = [] :=
  c5_unchanged_triple_idempotent c3w_g c3w_sig c5w_sig2 ("new") ("p") ("l")
    rfl rfl rfl rfl rfl rfl (by decide) (by decide) (by decide) (by decide)

/-! ## C6 — a delivery fault does not block or drop the next event -/

/-- The worker always attempts delivery of the first queued item. -/
theorem run_handler_attempts_head (x : Event × DeliveryEnv)
    (rest : List (Event × DeliveryEnv)) :
    (run_handler (x :: rest)).attempted.head? = some x.1 := by
  rcases x with ⟨ev, env⟩
  unfold run_handler
  rcases ho : env.outcome with e | u
  · dsimp only
    split
    · rfl
    · split <;> rfl
  · rfl

/-- C6: when delivery of event N fails while the error channel still has
its receiver and the wakeup handle accepts the send, the worker pushes the
error into the error channel and continues exactly as the loop over the
remaining queue — in particular event N+1 is still received and its
delivery attempted. -/
theorem c6_delivery_fault_continues (ev ev2 : Event) (env env2 : DeliveryEnv)
    (rest : List (Event × DeliveryEnv)) (e : String)
    (ho : env.outcome = Except.error e) (hopen : env.errOpen = true)
    (hhandle : env.handleOk = true) :
    run_handler ((ev, env) :: (ev2, env2) :: rest) =
      { attempted := ev :: (run_handler ((ev2, env2) :: rest)).attempted,
        errorsSent := e :: (run_handler ((ev2, env2) :: rest)).errorsSent,
        exit := (run_handler ((ev2, env2) :: rest)).exit } ∧
    (run_handler ((ev2, env2) :: rest)).attempted.head? = some ev2 := by
  constructor
  · conv =>
      lhs
      rw [run_handler]
    rw [ho]
    dsimp only
    rw [if_neg (by simp [hopen]), if_neg (by simp [hhandle])]
  · exact run_handler_attempts_head (ev2, env2) rest

/-- Events used to witness C6 and C8. -/
def w_ev1 : Event := { id := none, timestamp := 1, duration := 0, data := [] }

/-- Second event used to witness C6 and C8. -/
def w_ev2 : Event := { id := none, timestamp := 2, duration := 0, data := [] }

/-- A failing delivery with a working error channel and wakeup handle. -/
def w_envFail : DeliveryEnv :=
  { outcome := Except.error ("request failed"), errOpen := true,
    handleOk := true }

/-- A successful delivery environment. -/
def w_envOk : DeliveryEnv :=
  { outcome := Except.ok (), errOpen := true, handleOk := true }

/-- Witness for C6 at concrete inputs: event 1 fails, its error is
forwarded, and event 2 is still attempted. -/
theorem c6_delivery_fault_continues_witness :
    run_handler [(w_ev1, w_envFail), (w_ev2, w_envOk)] =
      { attempted := w_ev1 :: (run_handler [(w_ev2, w_envOk)]).attempted,
        errorsSent :=
          ("request failed") :: (run_handler [(w_ev2, w_envOk)]).errorsSent,
        exit := (run_handler [(w_ev2, w_envOk)]).exit } ∧
    (run_handler [(w_ev2, w_envOk)]).attempted.head? = some w_ev2 :=
  c6_delivery_fault_continues w_ev1 w_ev2 w_envFail w_envOk []
    ("request failed") rfl rfl rfl

/-! ## C7 — the error-signal callback never returns -/

/-- Globals used for the C7 evaluation: connected before the fault. -/
def c7_g0 : Globals :=
  { connected := true, last_heartbeat := 0, last_file := "",
    last_project := "", last_language := "" }

/-- C7: evaluating the error-signal callback at the failing input — one
queued delivery error while the worker still holds the sending side of the
error channel (which it does for the whole process lifetime) — the
callback does schedule the user-visible notification and does set
`connected = false` for the drained error, but it does not return:
`blocking_recv` only yields `None` once every sender is dropped, so the
callback stays blocked on the interactive thread instead of draining the
currently queued errors and returning. -/
theorem c7_callback_drains_but_never_returns :
    error_callback c7_g0 [("request failed")] true =
      { globals :=
          { connected := false, last_heartbeat := 0, last_file := "",
            last_project := "", last_language := "" },
        notifications := [("request failed")], returned := false } := by decide

/-! ## C8 — how the worker loop can end -/

/-- A failed delivery whose error is forwarded but whose wakeup-handle
send fails: the `expect` aborts the worker. -/
def c8_envCrash : DeliveryEnv :=
  { outcome := Except.error ("request failed"), errOpen := true,
    handleOk := false }

/-- A failed delivery with the error channel's receiver gone. -/
def c8_envClosed : DeliveryEnv :=
  { outcome := Except.error ("request failed"), errOpen := false,
    handleOk := true }

/-- C8 counterexample: with the dispatch channel still holding a further
event and the error channel open, a failed wakeup-handle send aborts the
worker loop through the `expect` on line 50 of `handler.rs`: the run ends
in the crashed state and drops the pending second event, so the loop does
not reach its terminal state only on channel closure. -/
theorem c8_counterexample :
    run_handler [(w_ev1, c8_envCrash), (w_ev2, w_envOk)] =
      { attempted := [w_ev1], errorsSent := [("request failed")],
        exit := WorkerExit.crashed } := by decide

/-- Exit states of the worker when no wakeup-handle send fails. -/
theorem run_handler_exit_cases :
    ∀ l : List (Event × DeliveryEnv), (∀ x ∈ l, x.2.handleOk = true) →
      (run_handler l).exit = WorkerExit.drained ∨
      (run_handler l).exit = WorkerExit.errChannelClosed := by
  intro l
  induction l with
  | nil => intro _; exact Or.inl rfl
  | cons x rest ih =>
    intro hh
    obtain ⟨ev, env⟩ := x
    have hx : env.handleOk = true := hh (ev, env) (by simp)
    have hr := ih (fun y hy => hh y (List.mem_cons_of_mem _ hy))
    unfold run_handler
    rcases ho : env.outcome with e | u
    · dsimp only
      rcases hop : env.errOpen with _ | _
      · rw [if_pos (by simp)]
        exact Or.inr rfl
      · rw [if_neg (by simp), if_neg (by simp [hx])]
        exact hr
    · exact hr

/-- C8 (amended): the worker reaches a clean terminal state — dispatch
channel drained and closed, or stopped because the error channel's
receiver was torn down — whenever no wakeup-handle send fails; and when a
delivery fails with the error channel's receiver gone, it stops its loop
immediately and cleanly.  The one remaining abort is the `expect` panic on
a failed wakeup-handle send exhibited by the counterexample. -/
theorem c8_worker_shutdown (l : List (Event × DeliveryEnv)) :
    ((∀ x ∈ l, x.2.handleOk = true) →
      (run_handler l).exit = WorkerExit.drained ∨
      (run_handler l).exit = WorkerExit.errChannelClosed) ∧
    (∀ ev env rest e, env.outcome = Except.error e → env.errOpen = false →
      run_handler ((ev, env) :: rest) =
        { attempted := [ev], errorsSent := [],
          exit := WorkerExit.errChannelClosed }) := by
  constructor
  · exact run_handler_exit_cases l
  · intro ev env rest e ho hop
    unfold run_handler
    rw [ho]
    dsimp only
    rw [if_pos (by simp [hop])]

/-- Witness for C8 (amended) at concrete inputs: an all-successful queue
ends drained, and a failure with the error receiver gone stops the loop
cleanly. -/
theorem c8_worker_shutdown_witness :
    ((run_handler [(w_ev2, w_envOk)]).exit = WorkerExit.drained ∨
     (run_handler [(w_ev2, w_envOk)]).exit = WorkerExit.errChannelClosed) ∧
    run_handler [(w_ev1, c8_envClosed), (w_ev2, w_envOk)] =
      { attempted := [w_ev1], errorsSent := [],
        exit := WorkerExit.errChannelClosed } :=
  ⟨(c8_worker_shutdown [(w_ev2, w_envOk)]).1 (by decide),
   (c8_worker_shutdown [(w_ev1, c8_envClosed)]).2 w_ev1 c8_envClosed
     [(w_ev2, w_envOk)] ("request failed") rfl rfl⟩

/-! ## C9 — Start sets the connected flag to the attempt's success -/

/-- C9: `start_watcher` surfaces the bucket-creation result to its caller
unchanged, and sets the connected flag to exactly the success of that
attempt: true on success, false on failure. -/
theorem c9_start_sets_connected (r : Except String Unit) (g : Globals) :
    (start_watcher r g).1 = r ∧
    (∀ u, r = Except.ok u → (start_watcher r g).2.connected = true) ∧
    (∀ e, r = Except.error e → (start_watcher r g).2.connected = false) := by
  refine ⟨rfl, ?_, ?_⟩
  · intro u hu
    subst hu
    rfl
  · intro e he
    subst he
    rfl

/-- Witness for C9 at concrete inputs: a successful attempt connects, a
failed attempt leaves the client disconnected and returns the error. -/
theorem c9_start_sets_connected_witness :
    (start_watcher (Except.ok ()) c4w_g).2.connected = true ∧
    (start_watcher (Except.error ("bucket create failed")) c3w_g).2.connected
      = false ∧
    (start_watcher (Except.error ("bucket create failed")) c3w_g).1
      = Except.error ("bucket create failed") :=
  ⟨(c9_start_sets_connected (Except.ok ()) c4w_g).2.1 () rfl,
   (c9_start_sets_connected (Except.error ("bucket create failed"))
      c3w_g).2.2 ("bucket create failed") rfl,
   (c9_start_sets_connected (Except.error ("bucket create failed"))
      c3w_g).1⟩

/-! ## C10 — lock failure is a silent skip, resolution failure a hard error -/

/-- C10: when acquiring the globals lock fails the filter returns
`Ok(false)` with untouched globals and no enqueue — no error reaches the
caller — whereas a failed file resolution on a signal that passed the
gates is propagated to the caller as a hard error (with `last_heartbeat`
already overwritten and still no enqueue). -/
theorem c10_lock_failure_silent_skip (g : Globals) (tx : Bool) (sig : Signal) :
    trigger_heartbeat false tx g sig = (Except.ok false, g, []) ∧
    (∀ e, g.connected = true → 1000 < sig.now - g.last_heartbeat →
      sig.file = Except.error e →
      trigger_heartbeat true tx g sig =
        (Except.error e, { g with last_heartbeat := sig.now }, [])) := by
  constructor
  · rfl
  · intro e hc ht hfe
    unfold trigger_heartbeat
    rw [if_neg (by simp : ¬((true : Bool) = false)), if_neg (by simp [hc]),
      if_neg (Nat.not_le.mpr ht), hfe]

/-- Signal used to witness C10: file resolution fails. -/
def c10w_sig : Signal :=
  { now := 5000, utcNow := 5000, file := Except.error ("bad path"),
    project := Except.ok ("p"), language := Except.ok ("l") }

/-- Witness for C10 at concrete inputs. -/
theorem c10_lock_failure_silent_skip_witness :
    trigger_heartbeat false true c3w_g c3w_sig = (Except.ok false, c3w_g, []) ∧
    trigger_heartbeat true true c3w_g c10w_sig =
      (Except.error ("bad path"),
       { connected := true, last_heartbeat := 5000, last_file := "old",
         last_project := "p", last_language := "l" }, []) :=
  ⟨(c10_lock_failure_silent_skip c3w_g true c3w_sig).1,
   (c10_lock_failure_silent_skip c3w_g true c10w_sig).2 ("bad path") rfl
     (by decide) rfl⟩
